import Mathlib

/-
Verification development for the task2habitica-rs synchronizer.

The Rust source is embedded shallowly:
  - machine floats (f64) are modelled by the structure F64 below: an exact
    rational value together with a NaN flag.  All priority and stat values the
    program manipulates are small decimals for which the IEEE rounding of the
    source is absorbed by the 0.01 tolerances it uses, so exact rational
    arithmetic is a faithful abstraction; NaN is tracked explicitly because the
    comparison operators of the source return false on NaN.
  - chrono DateTime values are modelled by integers (a timestamp scale);
    Utc::now() becomes an explicit parameter called now.
  - Uuid values are modelled by naturals; Uuid::new_v4() becomes an explicit
    fresh parameter.
  - functions returning Result<T> that can in fact never fail (the converter
    functions construct no error) are modelled as total functions returning T.
-/

namespace Task2Habitica

/-- Model of a Rust f64: exact rational value plus a NaN flag.  Operations
mirror IEEE semantics on the fragment the program uses: arithmetic propagates
NaN, and every ordered comparison involving NaN is false. -/
structure F64 where
  nan : Bool
  val : ℚ
deriving DecidableEq

/-- Subtraction of modelled floats (NaN propagates). -/
def F64.sub (a b : F64) : F64 := ⟨a.nan || b.nan, a.val - b.val⟩

/-- Absolute value of a modelled float (NaN propagates). -/
def F64.fabs (a : F64) : F64 := ⟨a.nan, |a.val|⟩

/-- Strict less-than on modelled floats; false whenever either side is NaN. -/
def F64.flt (a b : F64) : Bool := !a.nan && !b.nan && decide (a.val < b.val)

/-- Strict greater-than on modelled floats; false whenever either side is NaN. -/
def F64.fgt (a b : F64) : Bool := !a.nan && !b.nan && decide (b.val < a.val)

/-- IEEE equality on modelled floats; false whenever either side is NaN. -/
def F64.feq (a b : F64) : Bool := !a.nan && !b.nan && decide (a.val = b.val)

/-- Rust != on f64: the negation of IEEE equality (so NaN != x is true). -/
def F64.fne (a b : F64) : Bool := !(F64.feq a b)

/-- Ordinary (non-NaN) float literal. -/
def F64.ofRat (q : ℚ) : F64 := ⟨false, q⟩

/-- Status of a Taskwarrior task (src/taskwarrior/task.rs, enum TaskStatus). -/
inductive TaskStatus where
  | Pending
  | Waiting
  | Completed
  | Deleted
  | Recurring
deriving DecidableEq

/-- TaskStatus::should_sync_to_habitica. -/
def TaskStatus.should_sync_to_habitica : TaskStatus → Bool
  | .Pending | .Waiting | .Completed => true
  | _ => false

/-- TaskStatus::is_completed. -/
def TaskStatus.is_completed (s : TaskStatus) : Bool := s = TaskStatus.Completed

/-- TaskStatus::is_pending. -/
def TaskStatus.is_pending : TaskStatus → Bool
  | .Pending | .Waiting => true
  | _ => false

/-- Task difficulty (src/taskwarrior/task.rs, enum TaskDifficulty); the
serde Default is Easy. -/
inductive TaskDifficulty where
  | Trivial
  | Easy
  | Medium
  | Hard
deriving DecidableEq

/-- TaskDifficulty::to_habitica_priority. -/
def TaskDifficulty.to_habitica_priority : TaskDifficulty → F64
  | .Trivial => F64.ofRat (1/10)
  | .Easy => F64.ofRat 1
  | .Medium => F64.ofRat (3/2)
  | .Hard => F64.ofRat 2

/-- TaskDifficulty::from_habitica_priority: tolerance 0.01 against each
threshold in order Trivial, Easy, Medium, defaulting to Hard. -/
def TaskDifficulty.from_habitica_priority (priority : F64) : TaskDifficulty :=
  if F64.flt (F64.fabs (F64.sub priority (F64.ofRat (1/10)))) (F64.ofRat (1/100)) then
    TaskDifficulty.Trivial
  else if F64.flt (F64.fabs (F64.sub priority (F64.ofRat 1))) (F64.ofRat (1/100)) then
    TaskDifficulty.Easy
  else if F64.flt (F64.fabs (F64.sub priority (F64.ofRat (3/2)))) (F64.ofRat (1/100)) then
    TaskDifficulty.Medium
  else
    TaskDifficulty.Hard

/-- Task type (src/taskwarrior/task.rs, enum TaskType); the serde Default is
Todo. -/
inductive TaskType where
  | Todo
  | Daily
  | Habit
  | Reward
deriving DecidableEq

/-- Habitica task status (src/habitica/task.rs, enum HabiticaTaskStatus). -/
inductive HabiticaTaskStatus where
  | Pending
  | Completed
deriving DecidableEq

/-- Habitica task type (src/habitica/task.rs, enum HabiticaTaskType). -/
inductive HabiticaTaskType where
  | Todo
  | Daily
  | Habit
  | Reward
deriving DecidableEq

/-- Annotation on a Taskwarrior task (src/taskwarrior/task.rs). -/
structure Annotation where
  entry : String
  description : String
deriving DecidableEq

/-- A Taskwarrior task (src/taskwarrior/task.rs, struct Task).  Uuid values
are modelled by naturals, DateTime values by integer timestamps and the opaque
serde_json extra map by an association list; the annos field models the field
holding the ordered annotation list. -/
structure Task where
  uuid : ℕ
  description : String
  status : TaskStatus
  modified : Option ℤ
  due : Option ℤ
  annos : Option (List Annotation)
  habitica_uuid : Option ℕ
  habitica_difficulty : Option TaskDifficulty
  habitica_task_type : Option TaskType
  extra : List (String × String)
deriving DecidableEq

/-- Task::difficulty: the stored difficulty or the serde default Easy. -/
def Task.difficulty (t : Task) : TaskDifficulty :=
  t.habitica_difficulty.getD TaskDifficulty.Easy

/-- Task::task_type: the stored type or the serde default Todo. -/
def Task.task_type (t : Task) : TaskType :=
  t.habitica_task_type.getD TaskType.Todo

/-- Task::modified_or_now with Utc::now() passed explicitly. -/
def Task.modified_or_now (t : Task) (now : ℤ) : ℤ :=
  t.modified.getD now

/-- A task as represented in the Habitica API (src/habitica/task.rs). -/
structure HabiticaTask where
  id : Option ℕ
  text : String
  notes : String
  task_type : HabiticaTaskType
  priority : F64
  completed : Bool
  date : Option ℤ
  updated_at : Option ℤ
  is_due : Bool
deriving DecidableEq

/-- HabiticaTask::effective_status: a Daily is Pending only if it is not
completed and is due; other types follow the completed flag. -/
def HabiticaTask.effective_status (h : HabiticaTask) : HabiticaTaskStatus :=
  if h.task_type = HabiticaTaskType.Daily then
    if !h.completed && h.is_due then HabiticaTaskStatus.Pending
    else HabiticaTaskStatus.Completed
  else if h.completed then HabiticaTaskStatus.Completed
  else HabiticaTaskStatus.Pending

/-- HabiticaTask::modified_or_now with Utc::now() passed explicitly. -/
def HabiticaTask.modified_or_now (h : HabiticaTask) (now : ℤ) : ℤ :=
  h.updated_at.getD now

/-- converter::taskwarrior_to_habitica (src/sync/converter.rs).  The Rust
function returns Result but constructs no error, so it is modelled as the
Option it wraps. -/
def taskwarrior_to_habitica (tw_task : Task) (note_content : Option String) :
    Option HabiticaTask :=
  if !tw_task.status.should_sync_to_habitica then none
  else
    match tw_task.status with
    | TaskStatus.Deleted | TaskStatus.Recurring => none
    | st =>
      some
        { id := tw_task.habitica_uuid,
          text := tw_task.description,
          notes := note_content.getD "",
          task_type :=
            match tw_task.task_type with
            | TaskType.Todo => HabiticaTaskType.Todo
            | TaskType.Daily => HabiticaTaskType.Daily
            | _ => HabiticaTaskType.Todo,
          priority := tw_task.difficulty.to_habitica_priority,
          completed := decide (st = TaskStatus.Completed),
          date := tw_task.due,
          updated_at := tw_task.modified,
          is_due := false }

/-- converter::habitica_to_taskwarrior (src/sync/converter.rs), with the
fresh Uuid::new_v4() passed explicitly. -/
def habitica_to_taskwarrior (fresh : ℕ) (h_task : HabiticaTask)
    (existing_tw_task : Option Task) : Task :=
  let status :=
    match h_task.effective_status with
    | HabiticaTaskStatus.Pending => TaskStatus.Pending
    | HabiticaTaskStatus.Completed => TaskStatus.Completed
  let difficulty := TaskDifficulty.from_habitica_priority h_task.priority
  let task_type :=
    match h_task.task_type with
    | HabiticaTaskType.Todo => TaskType.Todo
    | HabiticaTaskType.Daily => TaskType.Daily
    | HabiticaTaskType.Habit => TaskType.Habit
    | HabiticaTaskType.Reward => TaskType.Reward
  match existing_tw_task with
  | some existing =>
    { uuid := existing.uuid,
      description := h_task.text,
      status := status,
      modified := h_task.updated_at,
      due := h_task.date,
      annos := existing.annos,
      habitica_uuid := h_task.id,
      habitica_difficulty := some difficulty,
      habitica_task_type := some task_type,
      extra := existing.extra }
  | none =>
    { uuid := fresh,
      description := h_task.text,
      status := status,
      modified := h_task.updated_at,
      due := h_task.date,
      annos := none,
      habitica_uuid := h_task.id,
      habitica_difficulty := some difficulty,
      habitica_task_type := some task_type,
      extra := [] }

/-- converter::update_taskwarrior_from_habitica (src/sync/converter.rs): the
in-place update, modelled as returning the updated task.  The status match
preserves a Waiting local task when the remote effective status is Pending. -/
def update_taskwarrior_from_habitica (tw_task : Task) (h_task : HabiticaTask) :
    Task :=
  { tw_task with
    description := h_task.text,
    due := h_task.date,
    modified := h_task.updated_at,
    habitica_uuid := h_task.id,
    habitica_difficulty := some (TaskDifficulty.from_habitica_priority h_task.priority),
    habitica_task_type :=
      some
        (match h_task.task_type with
        | HabiticaTaskType.Todo => TaskType.Todo
        | HabiticaTaskType.Daily => TaskType.Daily
        | HabiticaTaskType.Habit => TaskType.Habit
        | HabiticaTaskType.Reward => TaskType.Reward),
    status :=
      match h_task.effective_status, tw_task.status with
      | HabiticaTaskStatus.Pending, TaskStatus.Waiting => TaskStatus.Waiting
      | HabiticaTaskStatus.Pending, _ => TaskStatus.Pending
      | HabiticaTaskStatus.Completed, _ => TaskStatus.Completed }

/-- converter::tasks_are_equivalent (src/sync/converter.rs): the sequence of
early-return field checks; the priority check is the Rust != on f64. -/
def tasks_are_equivalent (tw_task : Task) (h_task : HabiticaTask) : Bool :=
  if tw_task.description ≠ h_task.text then false
  else if tw_task.due ≠ h_task.date then false
  else if F64.fne tw_task.difficulty.to_habitica_priority h_task.priority then false
  else
    let tw_type :=
      match tw_task.task_type with
      | TaskType.Todo => HabiticaTaskType.Todo
      | TaskType.Daily => HabiticaTaskType.Daily
      | TaskType.Habit => HabiticaTaskType.Habit
      | TaskType.Reward => HabiticaTaskType.Reward
    if tw_type ≠ h_task.task_type then false
    else if tw_task.status.is_completed ≠ h_task.completed then false
    else if tw_task.habitica_uuid ≠ h_task.id then false
    else true

/-- Outcome of conflict resolution (src/sync/resolver.rs). -/
inductive ResolutionAction where
  | UseTaskwarrior
  | UseHabitica
  | NoChange
deriving DecidableEq

/-- ConflictResolver::resolve (src/sync/resolver.rs): equivalence first, then
the modification-time comparison; the two Utc::now() defaults of the source
are modelled by one explicit now parameter. -/
def ConflictResolver.resolve (now : ℤ) (tw_task : Task) (h_task : HabiticaTask) :
    ResolutionAction :=
  if tasks_are_equivalent tw_task h_task then ResolutionAction.NoChange
  else
    let tw_modified := tw_task.modified_or_now now
    let h_modified := h_task.modified_or_now now
    if h_modified > tw_modified then ResolutionAction.UseHabitica
    else ResolutionAction.UseTaskwarrior

/-- The (None, Some(tw_task)) arm of the pairing loop in
commands::sync::handle_sync (src/commands/sync.rs lines 83-101): the local
task still references a Habitica id that no longer exists remotely.  The arm
writes back the task produced here. -/
def sync_vanished_remote (tw_task : Task) : Task :=
  if tw_task.status = TaskStatus.Completed then
    { tw_task with habitica_uuid := none }
  else
    { tw_task with status := TaskStatus.Deleted, habitica_uuid := none }

/-- User stats from Habitica (src/habitica/task.rs, struct UserStats). -/
structure UserStats where
  hp : ℚ
  max_hp : Option ℤ
  mp : ℚ
  max_mp : Option ℤ
  exp : ℚ
  to_next_level : Option ℤ
  gp : ℚ
  lvl : ℤ
deriving DecidableEq

/-- StatsCache (src/habitica/stats.rs): baseline stats, latest stats if any
mutation returned one, and the accumulated drop messages. -/
structure StatsCache where
  old : UserStats
  current : Option UserStats
  drops : List String
deriving DecidableEq

/-- StatsCache::new. -/
def StatsCache.mk_new (stats : UserStats) : StatsCache :=
  { old := stats, current := none, drops := [] }

/-- StatsCache::update: overwrite current only when a stats payload is
present; append the drop message when present. -/
def StatsCache.update (c : StatsCache) (stats : Option UserStats)
    (drop_message : Option String) : StatsCache :=
  let c1 :=
    match stats with
    | some s => { c with current := some s }
    | none => c
  match drop_message with
  | some msg => { c1 with drops := c1.drops ++ [msg] }
  | none => c1

/-- A sequence of StatsCache::update calls, applied in order. -/
def StatsCache.updates (c : StatsCache)
    (calls : List (Option UserStats × Option String)) : StatsCache :=
  calls.foldl (fun acc p => acc.update p.1 p.2) c

/-- Rust f64::round: nearest integer, ties away from zero. -/
def f64_round (q : ℚ) : ℤ :=
  if 0 ≤ q then ⌊q + 1/2⌋ else -⌊-q + 1/2⌋

/-- Rust float-to-i32 cast: truncation toward zero (all call sites here are
in range). -/
def f64_trunc (q : ℚ) : ℤ :=
  if 0 ≤ q then ⌊q⌋ else ⌈q⌉

/-- Rust fixed two-decimal formatting of a float.  Ties round up here; no
value in the claims sits on a tie. -/
def fmt2 (q : ℚ) : String :=
  let s := if q < 0 then "-" else ""
  let cents : ℤ := ⌊|q| * 100 + 1/2⌋
  s ++ toString (cents / 100) ++ "." ++
    (if cents % 100 < 10 then "0" else "") ++ toString (cents % 100)

/-- StatsCache::format_stat_diff (src/habitica/stats.rs): none when the
change is below 0.01, otherwise the rendered line, with the parenthetical
tail carrying new/max when a max is supplied and just new otherwise. -/
def format_stat_diff (name : String) (old_val new_val : ℚ)
    (max_val : Option ℚ) : Option String :=
  let diff := new_val - old_val
  if |diff| < 1/100 then none
  else
    let dir := if diff > 0 then "+" else "-"
    let abs_diff := |diff|
    let diff_str := if abs_diff < 1 then fmt2 abs_diff else toString (f64_round abs_diff)
    let new_str := if new_val < 1 then fmt2 new_val else toString (f64_round new_val)
    some
      (match max_val with
      | some m =>
        name ++ ":" ++ dir ++ diff_str ++ " (" ++ new_str ++ "/" ++
          toString (f64_trunc m) ++ ")"
      | none => name ++ ":" ++ dir ++ diff_str ++ " (" ++ new_str ++ ")")

/-- StatsCache::get_diff_messages (src/habitica/stats.rs): the rendered stat
diff, in source order Level, HP, MP, Exp (suppressed on level change), Gold,
then the drop messages. -/
def StatsCache.get_diff_messages (c : StatsCache) : List String :=
  match c.current with
  | none => c.drops
  | some cur =>
    let lvl_diff := cur.lvl - c.old.lvl
    let messages : List String :=
      if lvl_diff > 0 then
        ["LEVEL UP! (" ++ toString c.old.lvl ++ " -> " ++ toString cur.lvl ++ ")"]
      else if lvl_diff < 0 then
        ["LEVEL LOST! (" ++ toString c.old.lvl ++ " -> " ++ toString cur.lvl ++ ")"]
      else []
    let messages := messages ++
      (format_stat_diff "HP" c.old.hp cur.hp (cur.max_hp.map (fun m => (m : ℚ)))).toList
    let messages := messages ++
      (format_stat_diff "MP" c.old.mp cur.mp (cur.max_mp.map (fun m => (m : ℚ)))).toList
    let messages :=
      if lvl_diff = 0 then
        messages ++
          (format_stat_diff "Exp" c.old.exp cur.exp
            (cur.to_next_level.map (fun m => (m : ℚ)))).toList
      else messages
    let messages := messages ++
      (format_stat_diff "Gold" c.old.gp cur.gp none).toList
    messages ++ c.drops

/-- C5: for every difficulty bucket, decoding the encoded canonical priority
returns the same bucket: from_habitica_priority (to_habitica_priority d) = d
for d in Trivial, Easy, Medium, Hard. -/
theorem c5_difficulty_round_trip :
    ∀ d : TaskDifficulty,
      TaskDifficulty.from_habitica_priority (TaskDifficulty.to_habitica_priority d) = d := by
  intro d
  cases d <;>
    norm_num [TaskDifficulty.from_habitica_priority, TaskDifficulty.to_habitica_priority,
      F64.flt, F64.fabs, F64.sub, F64.ofRat, abs_lt]

/-- C9: decoding a numeric priority is total and matches the tolerance table:
NaN and anything not within 0.01 of 0.1, 1.0 or 1.5 decodes to Hard, and
values within 0.01 of 0.1, 1.0, 1.5 (tested in that order) decode to Trivial,
Easy, Medium respectively. -/
theorem c9_priority_decode_total :
    ∀ p : F64,
      TaskDifficulty.from_habitica_priority p =
        (if p.nan then TaskDifficulty.Hard
         else if |p.val - 1/10| < 1/100 then TaskDifficulty.Trivial
         else if |p.val - 1| < 1/100 then TaskDifficulty.Easy
         else if |p.val - 3/2| < 1/100 then TaskDifficulty.Medium
         else TaskDifficulty.Hard) := by
  intro p
  obtain ⟨n, v⟩ := p
  cases n <;>
    simp [TaskDifficulty.from_habitica_priority, F64.flt, F64.fabs, F64.sub, F64.ofRat]

/-- C3: resolve returns NoChange exactly on equivalent pairs; on
non-equivalent pairs it returns UseHabitica exactly when the remote
modification time (missing timestamps defaulting to now) is strictly greater
than the local one, and UseTaskwarrior in every other case, ties included. -/
theorem c3_resolve_characterization :
    ∀ (now : ℤ) (tw_task : Task) (h_task : HabiticaTask),
      (ConflictResolver.resolve now tw_task h_task = ResolutionAction.NoChange ↔
        tasks_are_equivalent tw_task h_task = true) ∧
      (ConflictResolver.resolve now tw_task h_task = ResolutionAction.UseHabitica ↔
        (tasks_are_equivalent tw_task h_task = false ∧
          h_task.modified_or_now now > tw_task.modified_or_now now)) ∧
      (ConflictResolver.resolve now tw_task h_task = ResolutionAction.UseTaskwarrior ↔
        (tasks_are_equivalent tw_task h_task = false ∧
          ¬ h_task.modified_or_now now > tw_task.modified_or_now now)) := by
  intro now tw_task h_task
  unfold ConflictResolver.resolve
  by_cases he : tasks_are_equivalent tw_task h_task = true
  · simp [he]
  · simp only [Bool.not_eq_true] at he
    by_cases hm : h_task.modified_or_now now > tw_task.modified_or_now now <;>
      simp [he, hm]

/-- C10: the notes text of the remote task is never read by
tasks_are_equivalent, so two remote tasks differing only in notes get the
same equivalence verdict against any local task and the same resolution. -/
theorem c10_notes_do_not_affect_equivalence :
    ∀ (tw_task : Task) (h_task : HabiticaTask) (n : String) (now : ℤ),
      tasks_are_equivalent tw_task { h_task with notes := n } =
        tasks_are_equivalent tw_task h_task ∧
      ConflictResolver.resolve now tw_task { h_task with notes := n } =
        ConflictResolver.resolve now tw_task h_task := by
  intro tw_task h_task n now
  exact ⟨rfl, rfl⟩

/-- C8: when the referenced remote id has vanished, the written-back task
always has its Habitica id cleared, keeps status Completed when it was
Completed, and gets status Deleted otherwise. -/
theorem c8_vanished_remote :
    ∀ tw_task : Task,
      (sync_vanished_remote tw_task).habitica_uuid = none ∧
      (sync_vanished_remote tw_task).status =
        (if tw_task.status = TaskStatus.Completed then TaskStatus.Completed
         else TaskStatus.Deleted) := by
  intro tw_task
  unfold sync_vanished_remote
  by_cases hc : tw_task.status = TaskStatus.Completed <;> simp [hc]

/-- A remote Todo task whose effective status is Pending, paired below with a
Waiting local task. -/
def exRemotePending : HabiticaTask :=
  { id := some 1,
    text := "t",
    notes := "",
    task_type := HabiticaTaskType.Todo,
    priority := F64.ofRat 1,
    completed := false,
    date := none,
    updated_at := some 5,
    is_due := false }

/-- A local task in the Waiting status matching exRemotePending. -/
def exLocalWaiting : Task :=
  { uuid := 7,
    description := "t",
    status := TaskStatus.Waiting,
    modified := some 3,
    due := none,
    annos := none,
    habitica_uuid := some 1,
    habitica_difficulty := some TaskDifficulty.Easy,
    habitica_task_type := some TaskType.Todo,
    extra := [] }

/-- C1 counterexample: habitica_to_taskwarrior, the remote-to-local converter
used by pull_from_habitica, is given a Pending-effective remote task together
with an existing Waiting local task and produces status Pending, not
Waiting. -/
theorem c1_counterexample :
    exRemotePending.effective_status = HabiticaTaskStatus.Pending ∧
    exLocalWaiting.status = TaskStatus.Waiting ∧
    (habitica_to_taskwarrior 0 exRemotePending (some exLocalWaiting)).status =
      TaskStatus.Pending := by
  refine ⟨rfl, rfl, ?_⟩
  rfl

/-- C1 amended: the Waiting override lives only in
update_taskwarrior_from_habitica, which keeps Waiting when the remote
effective status is Pending; habitica_to_taskwarrior, the converter the pull
path actually calls, derives Pending from the remote regardless of the
existing Waiting status. -/
theorem c1_waiting_override_location :
    ∀ (h_task : HabiticaTask) (tw_task : Task) (fresh : ℕ),
      h_task.effective_status = HabiticaTaskStatus.Pending →
      tw_task.status = TaskStatus.Waiting →
      (update_taskwarrior_from_habitica tw_task h_task).status = TaskStatus.Waiting ∧
      (habitica_to_taskwarrior fresh h_task (some tw_task)).status = TaskStatus.Pending := by
  intro h_task tw_task fresh heff hw
  constructor
  · simp [update_taskwarrior_from_habitica, heff, hw]
  · simp [habitica_to_taskwarrior, heff]

/-- C1 witness: the amended statement applied to the concrete
Pending-effective remote task and Waiting local task. -/
theorem c1_waiting_override_witness :
    exRemotePending.effective_status = HabiticaTaskStatus.Pending ∧
    exLocalWaiting.status = TaskStatus.Waiting ∧
    ((update_taskwarrior_from_habitica exLocalWaiting exRemotePending).status =
        TaskStatus.Waiting ∧
      (habitica_to_taskwarrior 0 exRemotePending (some exLocalWaiting)).status =
        TaskStatus.Pending) :=
  ⟨rfl, rfl,
    c1_waiting_override_location exRemotePending exLocalWaiting 0 rfl rfl⟩

/-- A sync-eligible local task whose Habitica type is Habit. -/
def exHabitTask : Task :=
  { uuid := 9,
    description := "h",
    status := TaskStatus.Pending,
    modified := none,
    due := none,
    annos := none,
    habitica_uuid := some 2,
    habitica_difficulty := some TaskDifficulty.Easy,
    habitica_task_type := some TaskType.Habit,
    extra := [] }

/-- C2 counterexample: a sync-eligible Habit-typed local task converts to a
Todo-typed remote task (the converter folds Habit and Reward into Todo), and
tasks_are_equivalent then rejects the pair on the type check. -/
theorem c2_counterexample :
    exHabitTask.status.should_sync_to_habitica = true ∧
    (taskwarrior_to_habitica exHabitTask none).map
        (tasks_are_equivalent exHabitTask) = some false := by
  constructor
  · rfl
  · norm_num [taskwarrior_to_habitica, tasks_are_equivalent, exHabitTask,
      Task.task_type, Task.difficulty, TaskStatus.should_sync_to_habitica,
      F64.fne, F64.feq, TaskDifficulty.to_habitica_priority, F64.ofRat]
    decide

/-- The priority encoding never compares unequal to itself under the Rust
float inequality, since the four canonical priorities are ordinary values. -/
theorem fne_to_habitica_priority_self :
    ∀ d : TaskDifficulty,
      F64.fne d.to_habitica_priority d.to_habitica_priority = false := by
  intro d
  cases d <;> simp [F64.fne, F64.feq, TaskDifficulty.to_habitica_priority, F64.ofRat]

/-- C2 amended: equivalence reflexivity of the local-to-remote conversion
holds for every sync-eligible local task whose Habitica type is Todo or
Daily; Habit and Reward tasks are excluded because the converter maps them to
Todo while the equivalence check maps them to themselves. -/
theorem c2_equivalence_reflexive_todo_daily :
    ∀ (tw_task : Task) (note_content : Option String) (h_task : HabiticaTask),
      (tw_task.task_type = TaskType.Todo ∨ tw_task.task_type = TaskType.Daily) →
      taskwarrior_to_habitica tw_task note_content = some h_task →
      tasks_are_equivalent tw_task h_task = true := by
  intro tw_task note_content h_task htype hconv
  unfold taskwarrior_to_habitica at hconv
  by_cases hs : tw_task.status.should_sync_to_habitica
  · simp only [hs, Bool.not_true, Bool.false_eq_true, if_false] at hconv
    rcases hst : tw_task.status with _ | _ | _ | _ | _ <;> rw [hst] at hconv <;>
      simp only [reduceCtorEq, Option.some.injEq] at hconv <;>
      (try subst hconv) <;>
      rcases htype with hT | hT <;>
        simp [tasks_are_equivalent, hT, hst, fne_to_habitica_priority_self,
          TaskStatus.is_completed]
  · simp [hs] at hconv

/-- A sync-eligible Todo local task used to witness the amended C2. -/
def exTodoTask : Task :=
  { uuid := 3,
    description := "m",
    status := TaskStatus.Pending,
    modified := some 1,
    due := none,
    annos := none,
    habitica_uuid := some 4,
    habitica_difficulty := some TaskDifficulty.Medium,
    habitica_task_type := some TaskType.Todo,
    extra := [] }

/-- The remote task taskwarrior_to_habitica produces from exTodoTask. -/
def exTodoRemote : HabiticaTask :=
  { id := some 4,
    text := "m",
    notes := "",
    task_type := HabiticaTaskType.Todo,
    priority := F64.ofRat (3/2),
    completed := false,
    date := none,
    updated_at := some 1,
    is_due := false }

/-- C2 witness: the amended reflexivity applied to the concrete Todo task. -/
theorem c2_equivalence_witness :
    (exTodoTask.task_type = TaskType.Todo ∨ exTodoTask.task_type = TaskType.Daily) ∧
    taskwarrior_to_habitica exTodoTask none = some exTodoRemote ∧
    tasks_are_equivalent exTodoTask exTodoRemote = true :=
  ⟨Or.inl rfl, rfl,
    c2_equivalence_reflexive_todo_daily exTodoTask none exTodoRemote (Or.inl rfl) rfl⟩

/-- Prepending an element to a list shifts it into the default slot of the
last-element-with-default computation. -/
theorem last_or_cons {α : Type} :
    ∀ (l : List α) (a : α) (x : Option α),
      ((a :: l).getLast?).or x = (l.getLast?).or (some a) := by
  intro l
  induction l with
  | nil => intro a x; rfl
  | cons b l ih =>
    intro a x
    rw [List.getLast?_cons_cons, ih b x, ih b (some a)]

/-- C6: across any sequence of StatsCache update calls, the current snapshot
ends as the last stats payload that was present (unchanged if none was), and
the drop messages are exactly the prior ones followed by the Some messages of
the sequence in call order. -/
theorem c6_stats_update_sequence :
    ∀ (calls : List (Option UserStats × Option String)) (c : StatsCache),
      (StatsCache.updates c calls).current =
        ((calls.filterMap Prod.fst).getLast?).or c.current ∧
      (StatsCache.updates c calls).drops =
        c.drops ++ calls.filterMap Prod.snd := by
  intro calls
  induction calls with
  | nil => intro c; simp [StatsCache.updates]
  | cons p calls ih =>
    intro c
    obtain ⟨s, m⟩ := p
    have hstep : StatsCache.updates c ((s, m) :: calls) =
        StatsCache.updates (c.update s m) calls := rfl
    obtain ⟨ih1, ih2⟩ := ih (c.update s m)
    rw [hstep]
    constructor
    · rw [ih1]
      cases s with
      | none =>
        have hc : (StatsCache.update c none m).current = c.current := by
          cases m <;> rfl
        rw [hc]
        simp [List.filterMap_cons]
      | some st =>
        have hc : (StatsCache.update c (some st) m).current = some st := by
          cases m <;> rfl
        rw [hc]
        simp only [List.filterMap_cons]
        exact (last_or_cons (calls.filterMap Prod.fst) st c.current).symm
    · rw [ih2]
      cases s <;> cases m <;> simp [StatsCache.update, List.filterMap_cons]

/-- Baseline stats used for the rendering counterexample. -/
def exOldStats : UserStats :=
  { hp := 50, max_hp := some 50, mp := 50, max_mp := some 50,
    exp := 0, to_next_level := some 100, gp := 100, lvl := 1 }

/-- Latest stats differing from the baseline only in experience. -/
def exNewStatsExp : UserStats := { exOldStats with exp := 10 }

/-- A stats cache whose only change is an experience gain. -/
def exStatsCacheExp : StatsCache :=
  { old := exOldStats, current := some exNewStatsExp, drops := [] }

/-- C4 counterexample: with only experience changed and the level unchanged,
the rendered diff is a single Exp line that does carry a ceiling in
parentheses, the toNextLevel value: "Exp:+10 (10/100)". -/
theorem c4_counterexample :
    exStatsCacheExp.get_diff_messages = ["Exp:+10 (10/100)"] := by
  norm_num [StatsCache.get_diff_messages, exStatsCacheExp, exOldStats,
    exNewStatsExp, format_stat_diff, f64_round, f64_trunc]
  rfl

/-- C4 amended: the rendered diff attaches a parenthetical ceiling to the HP
line (maxHealth), the MP line (maxMP) and the Exp line (toNextLevel), while
the Gold line is rendered with no ceiling; the concrete conjuncts show a
ceilinged HP line and a ceiling-free Gold line. -/
theorem c4_ceiling_assignment :
    (∀ (old cur : UserStats) (drops : List String),
      StatsCache.get_diff_messages { old := old, current := some cur, drops := drops } =
        (if cur.lvl - old.lvl > 0 then
          ["LEVEL UP! (" ++ toString old.lvl ++ " -> " ++ toString cur.lvl ++ ")"]
         else if cur.lvl - old.lvl < 0 then
          ["LEVEL LOST! (" ++ toString old.lvl ++ " -> " ++ toString cur.lvl ++ ")"]
         else []) ++
        (format_stat_diff "HP" old.hp cur.hp (cur.max_hp.map (fun m => (m : ℚ)))).toList ++
        (format_stat_diff "MP" old.mp cur.mp (cur.max_mp.map (fun m => (m : ℚ)))).toList ++
        (if cur.lvl - old.lvl = 0 then
          (format_stat_diff "Exp" old.exp cur.exp
            (cur.to_next_level.map (fun m => (m : ℚ)))).toList
         else []) ++
        (format_stat_diff "Gold" old.gp cur.gp none).toList ++ drops) ∧
    format_stat_diff "HP" 50 45 (some 50) = some "HP:-5 (45/50)" ∧
    format_stat_diff "Gold" 100 (211/2) none = some "Gold:+6 (106)" := by
  refine ⟨?_, ?_, ?_⟩
  · intro old cur drops
    by_cases h0 : cur.lvl - old.lvl = 0
    · simp [StatsCache.get_diff_messages, h0, List.append_assoc]
    · simp [StatsCache.get_diff_messages, h0, List.append_assoc]
  · norm_num [format_stat_diff, f64_round, f64_trunc]
    rfl
  · have habs : |(11:ℚ)/2| = 11/2 := by norm_num
    norm_num [format_stat_diff, f64_round, f64_trunc, habs]
    rfl

/-- C7: whenever the level changed, the diff opens with the LEVEL UP! or
LEVEL LOST! line in old -> new form and contains no Exp line at all, whatever
the experience values are; the remaining lines are HP, MP, Gold and the
drops. -/
theorem c7_level_change_suppresses_exp :
    ∀ (old cur : UserStats) (drops : List String),
      cur.lvl ≠ old.lvl →
      StatsCache.get_diff_messages { old := old, current := some cur, drops := drops } =
        (if old.lvl < cur.lvl then
          "LEVEL UP! (" ++ toString old.lvl ++ " -> " ++ toString cur.lvl ++ ")"
         else
          "LEVEL LOST! (" ++ toString old.lvl ++ " -> " ++ toString cur.lvl ++ ")") ::
        ((format_stat_diff "HP" old.hp cur.hp (cur.max_hp.map (fun m => (m : ℚ)))).toList ++
         (format_stat_diff "MP" old.mp cur.mp (cur.max_mp.map (fun m => (m : ℚ)))).toList ++
         (format_stat_diff "Gold" old.gp cur.gp none).toList ++ drops) := by
  intro old cur drops hne
  rcases lt_trichotomy old.lvl cur.lvl with hlt | heq | hgt
  · have h1 : cur.lvl - old.lvl > 0 := by omega
    have h2 : ¬ cur.lvl - old.lvl = 0 := by omega
    simp [StatsCache.get_diff_messages, h1, h2, hlt, List.append_assoc]
  · exact absurd heq.symm hne
  · have h1 : ¬ cur.lvl - old.lvl > 0 := by omega
    have h2 : cur.lvl - old.lvl < 0 := by omega
    have h3 : ¬ old.lvl < cur.lvl := by omega
    have h4 : ¬ cur.lvl - old.lvl = 0 := by omega
    simp [StatsCache.get_diff_messages, h1, h2, h3, h4, List.append_assoc]

/-- Baseline stats for the level-up example: level 1, experience 90. -/
def exOldLvl : UserStats :=
  { hp := 50, max_hp := some 50, mp := 50, max_mp := some 50,
    exp := 90, to_next_level := some 100, gp := 100, lvl := 1 }

/-- Latest stats for the level-up example: level 2, experience 10. -/
def exNewLvl : UserStats := { exOldLvl with exp := 10, lvl := 2 }

/-- C7 witness: the spec example old lvl 1 exp 90, new lvl 2 exp 10 renders
exactly the LEVEL UP! line and no Exp line. -/
theorem c7_level_change_witness :
    exNewLvl.lvl ≠ exOldLvl.lvl ∧
    StatsCache.get_diff_messages
        { old := exOldLvl, current := some exNewLvl, drops := [] } =
      ["LEVEL UP! (1 -> 2)"] := by
  refine ⟨by decide, ?_⟩
  rw [c7_level_change_suppresses_exp exOldLvl exNewLvl [] (by decide)]
  norm_num [exOldLvl, exNewLvl, format_stat_diff]
  rfl

end Task2Habitica
